import Mathlib

/-!
Shallow embedding of the reply-tracking / event-forwarding subsystem and the
inline-keyboard resolution logic of `src/main.py` (a FastAPI + Pyrogram
personal Telegram API).  Python values are modelled as follows: `str` as
`String`, `int` as `Int` (or `Nat` for counts), `float` coordinates as `ℚ`,
`datetime` timestamps as `Int`, `Optional[T]` as `Option T`, dictionaries as
association lists, and exceptions as `Except`.  Python truthiness on optional
strings (`None` and `""` are falsy) is modelled explicitly by `pyTruthyStr`.

The file is organized as definitions first (the embedding), then theorems.
-/

namespace TelegramPersonalApi

/- # Part 1: definitions -/

/-- Python truthiness of an `Optional[str]`: `None` and the empty string are
falsy, every other string is truthy. -/
def pyTruthyStr : Option String → Bool
  | none => false
  | some s => !s.isEmpty

/-- Python `a or b` on two `Optional[str]` values: `a` when `a` is truthy,
otherwise `b`. -/
def pyOrStr (a b : Option String) : Option String :=
  if pyTruthyStr a then a else b

/-- Python `s.lower()`, character by character (`Char.toLower`, matching
Python on the ASCII range). -/
def pyLower (s : String) : String :=
  ⟨s.data.map Char.toLower⟩

/- ## Tracked-Message Store (`tracked_messages`, src/main.py line 57)

`tracked_messages : Dict[int, List[Tuple[int, datetime]]]` maps a chat id to
the ordered list of `(message_id, created_at)` pairs recorded on send.  We
model it as an association list keyed by chat id; dict keys are unique, which
theorems assume via a `Nodup` hypothesis on the key list where needed. -/

/-- One tracked entry: `(message_id, created_at)`. -/
abbrev TrackedEntry := Int × Int

/-- The tracked-message store: association list from chat id to the ordered
entry list for that chat. -/
abbrev TrackedStore := List (Int × List TrackedEntry)

/-- Model of `tracked_messages.get(chat_id, [])`: the entry list of a chat, or `[]`
when the chat has no key in the store. -/
def trackedGet (store : TrackedStore) (chatId : Int) : List TrackedEntry :=
  (store.lookup chatId).getD []

/-- Body of one sweeper tick (src/main.py lines 332-338): with
`cutoff = now - horizon`, every chat's list is rewritten keeping only entries
with `ts > cutoff`, and chats whose list became empty are deleted from the
dict. -/
def prune (store : TrackedStore) (now horizon : Int) : TrackedStore :=
  (store.map fun c => (c.1, c.2.filter fun e => now - horizon < e.2)).filter
    fun c => !c.2.isEmpty

/- ## Expiry Sweeper (`cleanup_expired_tracking`, src/main.py lines 329-339)

The sweeper is `while True: await asyncio.sleep(3600); <prune body>; log`.
The loop body contains no `try`/`except`: an exception raised by a tick
propagates out of the coroutine and the task dies.  We model a run of the
loop over a finite prefix of tick outcomes; each tick either performs the
prune body at some `now` or raises. -/

/-- Outcome of one sweeper tick: the prune body runs at time `now`, or the
tick raises an exception with a message. -/
inductive TickOutcome where
  | success (now : Int)
  | failure (msg : String)
deriving DecidableEq, Repr

/-- Whether a tick outcome is a raised exception. -/
def TickOutcome.isFailure : TickOutcome → Bool
  | .success _ => false
  | .failure _ => true

/-- Run of the sweep loop (src/main.py lines 330-339) over a finite prefix of
tick outcomes, with the configured horizon.  Returns the final store and
whether the loop is still alive afterwards.  The loop body has no exception
handler, so the first raising tick terminates the loop (the remaining
outcomes are never reached). -/
def sweepRun (horizon : Int) : TrackedStore → List TickOutcome → TrackedStore × Bool
  | store, [] => (store, true)
  | store, .success now :: rest => sweepRun horizon (prune store now horizon) rest
  | store, .failure _ :: _ => (store, false)

/- ## Incoming-Message Classifier (`handle_incoming_message`, src/main.py lines 353-407)

Pyrogram objects are projected onto the fields the handler reads.  A chat's
`type` is a Pyrogram enum; the handler applies `str(...)`, splits on `"."`,
takes the last piece and lowercases it, so we carry `type_str`, the `str()`
rendering of the enum (e.g. `"ChatType.PRIVATE"`), as an optional string.
`datetime` values are carried opaquely as `Int`; their ISO-8601 rendering
happens at the serialization boundary, outside this model. -/

/-- A Pyrogram user, restricted to the fields the handler reads. -/
structure TUser where
  id : Int
  username : Option String := none
  first_name : Option String := none
  is_bot : Bool := false
deriving DecidableEq

/-- A Pyrogram chat, restricted to the fields the handler reads. -/
structure TChat where
  id : Int
  title : Option String := none
  first_name : Option String := none
  type_str : Option String := none
deriving DecidableEq

/-- The `message.reply_to_message` object: the message being replied to. -/
structure ReplyRef where
  id : Int
  from_user : Option TUser := none
  text : Option String := none
  caption : Option String := none
  date : Option Int := none
deriving DecidableEq

/-- An inbound message event, restricted to the fields the handler reads. -/
structure IncMessage where
  id : Int
  chat : TChat
  reply_to_message : Option ReplyRef := none
  text : Option String := none
  caption : Option String := none
  date : Option Int := none
  from_user : Option TUser := none
deriving DecidableEq

/-- Module-level configuration and state read by the classifier:
`WEBHOOK_URL`, `monitor_chat_ids`, `my_user_id`, `tracked_messages`
(src/main.py lines 40-57). -/
structure ClassifierEnv where
  webhook_url : Option String
  monitor_chat_ids : List Int
  my_user_id : Option Int
  tracked_messages : TrackedStore
deriving DecidableEq

/-- Model of `str(message.chat.type).split(".")[-1].lower() if message.chat.type else
"unknown"` (src/main.py line 382). -/
def chatTypeField : Option String → String
  | some s => pyLower ((s.splitOn ".").getLastD "")
  | none => "unknown"

/-- Model of `chat.title or chat.first_name or "Unknown"` (src/main.py line 381). -/
def chatTitleField (c : TChat) : String :=
  (pyOrStr (pyOrStr c.title c.first_name) (some "Unknown")).getD ""

/-- The `chat` block of the webhook payload. -/
structure PayloadChat where
  id : Int
  title : String
  type : String
deriving DecidableEq

/-- The `message` block of the webhook payload. -/
structure PayloadMessage where
  id : Int
  text : Option String
  date : Option Int
deriving DecidableEq

/-- The `from_user` block of the webhook payload. -/
structure PayloadFromUser where
  id : Option Int
  username : Option String
  first_name : Option String
  is_bot : Bool
deriving DecidableEq

/-- The `reply_to_message.from_user` block of the webhook payload. -/
structure PayloadReplyToUser where
  id : Option Int
  username : Option String
deriving DecidableEq

/-- The `reply_to_message` block of the webhook payload. -/
structure PayloadReplyTo where
  id : Int
  text : Option String
  date : Option Int
  from_user : PayloadReplyToUser
deriving DecidableEq

/-- The webhook payload built at src/main.py lines 376-404 (the `ReplyEvent`
handed to the dispatcher). -/
structure ReplyPayload where
  event : String
  timestamp : Int
  chat : PayloadChat
  message : PayloadMessage
  from_user : PayloadFromUser
  reply_to_message : PayloadReplyTo
deriving DecidableEq

/-- The incoming-message classifier (src/main.py lines 353-407).  Returns the
payload handed to `send_webhook`, or `none` when the handler returns without
dispatching; the source calls `send_webhook` exactly once on the match path,
so `Option` captures the number of dispatches (zero or one).  `now` is the
`datetime.now()` read at payload construction. -/
def handle_incoming_message (env : ClassifierEnv) (now : Int) (m : IncMessage) :
    Option ReplyPayload :=
  if !pyTruthyStr env.webhook_url then none
  else if !env.monitor_chat_ids.isEmpty && !(env.monitor_chat_ids.contains m.chat.id) then
    none
  else
    match m.reply_to_message with
    | none => none
    | some r =>
      let reply_to_id := r.id
      let reply_to_user_id := r.from_user.map TUser.id
      let is_reply_to_tracked :=
        (trackedGet env.tracked_messages m.chat.id).any fun e => e.1 == reply_to_id
      let is_reply_to_me := reply_to_user_id == env.my_user_id
      if !(is_reply_to_tracked || is_reply_to_me) then none
      else
        some
          { event := "reply_received"
            timestamp := now
            chat :=
              { id := m.chat.id
                title := chatTitleField m.chat
                type := chatTypeField m.chat.type_str }
            message := { id := m.id, text := pyOrStr m.text m.caption, date := m.date }
            from_user :=
              { id := m.from_user.map TUser.id
                username := m.from_user.bind TUser.username
                first_name := m.from_user.bind TUser.first_name
                is_bot := (m.from_user.map TUser.is_bot).getD false }
            reply_to_message :=
              { id := reply_to_id
                text := pyOrStr r.text r.caption
                date := r.date
                from_user :=
                  { id := reply_to_user_id
                    username := r.from_user.bind TUser.username } } }

/- ## Notification Dispatcher (`send_webhook`, src/main.py lines 342-350)

The external sink's behavior is a parameter: `Except.ok status` models the
POST completing with some HTTP status (httpx does not raise on non-2xx
statuses here, since `raise_for_status` is never called), `Except.error e`
models any raised failure (connection error, timeout, ...).  The trace
records every POST attempted, with its timeout in seconds, and whether an
exception escaped the function. -/

/-- Observable trace of one `send_webhook` call: the POSTs attempted (payload
and timeout seconds), the log line, and whether an exception propagated. -/
structure WebhookTrace where
  posts : List (ReplyPayload × Nat)
  log : String
  raised : Bool

/-- Dispatcher `send_webhook` (src/main.py lines 342-350): no-op when `WEBHOOK_URL` is
unset; otherwise one POST with `timeout=30.0`, and a bare `except` that logs
any failure instead of re-raising. -/
def send_webhook (url : Option String) (payload : ReplyPayload)
    (sink : Except String Nat) : WebhookTrace :=
  if !pyTruthyStr url then { posts := [], log := "", raised := false }
  else
    match sink with
    | .ok status =>
        { posts := [(payload, 30)]
          log := "Webhook sent: " ++ toString status
          raised := false }
    | .error e =>
        { posts := [(payload, 30)]
          log := "Webhook error: " ++ e
          raised := false }

/- ## Media Descriptor Extractor (`extract_media_info`, src/main.py lines 164-326)

Media attachments are projected onto the fields the extractor reads.
Geographic coordinates are `float` in the source; they are modelled as `ℚ`,
with Python `int(...)` (truncation toward zero) modelled by `pyInt`.
`bool(x)` on a float is falsy exactly at zero, which the extractor relies on
in the location branch (`... if location.latitude else None`). -/

/-- Python `int(q)`: truncation toward zero.  `Int.tdiv` is T-division, and a
rational in lowest terms with positive denominator truncates toward zero as
`num / den`. -/
def pyInt (q : ℚ) : Int :=
  Int.tdiv q.num (Int.ofNat q.den)

/-- The `message.photo` fields read by the extractor. -/
structure MPhoto where
  file_id : String
  file_unique_id : String
  file_size : Option Int := none
  width : Option Int := none
  height : Option Int := none
deriving DecidableEq

/-- The `message.video` fields read by the extractor. -/
structure MVideo where
  file_id : String
  file_unique_id : String
  file_name : Option String := none
  mime_type : Option String := none
  file_size : Option Int := none
  width : Option Int := none
  height : Option Int := none
  duration : Option Int := none
deriving DecidableEq

/-- The `message.animation` fields read by the extractor. -/
structure MAnimation where
  file_id : String
  file_unique_id : String
  file_name : Option String := none
  mime_type : Option String := none
  file_size : Option Int := none
  width : Option Int := none
  height : Option Int := none
  duration : Option Int := none
deriving DecidableEq

/-- The `message.document` fields read by the extractor. -/
structure MDocument where
  file_id : String
  file_unique_id : String
  file_name : Option String := none
  mime_type : Option String := none
  file_size : Option Int := none
deriving DecidableEq

/-- The `message.audio` fields read by the extractor. -/
structure MAudio where
  file_id : String
  file_unique_id : String
  file_name : Option String := none
  mime_type : Option String := none
  file_size : Option Int := none
  duration : Option Int := none
deriving DecidableEq

/-- The `message.voice` fields read by the extractor. -/
structure MVoice where
  file_id : String
  file_unique_id : String
  mime_type : Option String := none
  file_size : Option Int := none
  duration : Option Int := none
deriving DecidableEq

/-- The `message.video_note` fields read by the extractor. -/
structure MVideoNote where
  file_id : String
  file_unique_id : String
  file_size : Option Int := none
  width : Option Int := none
  height : Option Int := none
  duration : Option Int := none
deriving DecidableEq

/-- The `message.sticker` fields read by the extractor. -/
structure MSticker where
  file_id : String
  file_unique_id : String
  file_size : Option Int := none
  width : Option Int := none
  height : Option Int := none
  is_animated : Bool := false
  is_video : Bool := false
deriving DecidableEq

/-- The `message.contact` fields read by the extractor. -/
structure MContact where
  first_name : String
  last_name : Option String := none
deriving DecidableEq

/-- The `message.location` fields read by the extractor. -/
structure MLocation where
  latitude : ℚ
  longitude : ℚ
deriving DecidableEq

/-- The `message.venue` fields read by the extractor. -/
structure MVenue where
  title : String
deriving DecidableEq

/-- The `message.poll` fields read by the extractor (`poll.id` is a string in
Pyrogram, assigned to `file_id`). -/
structure MPoll where
  id : String
  question : String
deriving DecidableEq

/-- The `message.dice` fields read by the extractor. -/
structure MDice where
  emoji : String
  value : Int
deriving DecidableEq

/-- The `message.game` fields read by the extractor. -/
structure MGame where
  title : String
deriving DecidableEq

/-- The `message.web_page` fields read by the extractor. -/
structure MWebPage where
  title : Option String := none
  photo : Option MPhoto := none
deriving DecidableEq

/-- The `MediaInfo` pydantic model (src/main.py lines 119-129). -/
structure MediaInfo where
  type : String
  file_id : Option String := none
  file_unique_id : Option String := none
  file_name : Option String := none
  mime_type : Option String := none
  file_size : Option Int := none
  width : Option Int := none
  height : Option Int := none
  duration : Option Int := none
  caption : Option String := none
deriving DecidableEq

/-- A message as seen by `extract_media_info`: the `media` flag plus one
optional attachment object per kind, and the caption.  (In the source
protocol a message carries at most one attachment kind; the embedding does
not need that assumption, since the `elif` chain resolves any overlap by
precedence exactly as the source does.) -/
structure MediaMessage where
  media : Bool := false
  photo : Option MPhoto := none
  video : Option MVideo := none
  animation : Option MAnimation := none
  document : Option MDocument := none
  audio : Option MAudio := none
  voice : Option MVoice := none
  video_note : Option MVideoNote := none
  sticker : Option MSticker := none
  contact : Option MContact := none
  location : Option MLocation := none
  venue : Option MVenue := none
  poll : Option MPoll := none
  dice : Option MDice := none
  game : Option MGame := none
  web_page : Option MWebPage := none
  caption : Option String := none
deriving DecidableEq

/-- Extractor `extract_media_info` (src/main.py lines 164-326): `None` when
`message.media` is falsy; otherwise the `if`/`elif` chain probes the
attachment kinds in source order and the final `MediaInfo(...)` copies the
populated locals plus `message.caption`.  When no branch matches,
`media_type` stays `None` and the function returns `None`. -/
def extract_media_info (message : MediaMessage) : Option MediaInfo :=
  if !message.media then none
  else if let some photo := message.photo then
    some { type := "photo", file_id := some photo.file_id
           file_unique_id := some photo.file_unique_id
           file_size := photo.file_size, width := photo.width, height := photo.height
           caption := message.caption }
  else if let some video := message.video then
    some { type := "video", file_id := some video.file_id
           file_unique_id := some video.file_unique_id
           file_name := video.file_name, mime_type := video.mime_type
           file_size := video.file_size, width := video.width, height := video.height
           duration := video.duration, caption := message.caption }
  else if let some animation := message.animation then
    some { type := "animation", file_id := some animation.file_id
           file_unique_id := some animation.file_unique_id
           file_name := animation.file_name, mime_type := animation.mime_type
           file_size := animation.file_size, width := animation.width
           height := animation.height, duration := animation.duration
           caption := message.caption }
  else if let some document := message.document then
    some { type := "document", file_id := some document.file_id
           file_unique_id := some document.file_unique_id
           file_name := document.file_name, mime_type := document.mime_type
           file_size := document.file_size, caption := message.caption }
  else if let some audio := message.audio then
    some { type := "audio", file_id := some audio.file_id
           file_unique_id := some audio.file_unique_id
           file_name := audio.file_name, mime_type := audio.mime_type
           file_size := audio.file_size, duration := audio.duration
           caption := message.caption }
  else if let some voice := message.voice then
    some { type := "voice", file_id := some voice.file_id
           file_unique_id := some voice.file_unique_id
           mime_type := voice.mime_type, file_size := voice.file_size
           duration := voice.duration, caption := message.caption }
  else if let some video_note := message.video_note then
    some { type := "video_note", file_id := some video_note.file_id
           file_unique_id := some video_note.file_unique_id
           file_size := video_note.file_size, width := video_note.width
           height := video_note.height, duration := video_note.duration
           caption := message.caption }
  else if let some sticker := message.sticker then
    some { type := "sticker", file_id := some sticker.file_id
           file_unique_id := some sticker.file_unique_id
           file_size := sticker.file_size, width := sticker.width
           height := sticker.height
           mime_type := some (if sticker.is_animated || sticker.is_video
                              then "image/webp" else "image/webp")
           caption := message.caption }
  else if let some contact := message.contact then
    some { type := "contact", file_id := none
           file_name := some (if pyTruthyStr contact.last_name
                              then contact.first_name ++ " " ++ contact.last_name.getD ""
                              else contact.first_name)
           mime_type := some "text/vcard", caption := message.caption }
  else if let some location := message.location then
    some { type := "location", file_id := none
           width := if location.latitude ≠ 0
                    then some (pyInt (location.latitude * 1000000)) else none
           height := if location.longitude ≠ 0
                     then some (pyInt (location.longitude * 1000000)) else none
           caption := message.caption }
  else if let some venue := message.venue then
    some { type := "venue", file_id := none, file_name := some venue.title
           caption := message.caption }
  else if let some poll := message.poll then
    some { type := "poll", file_id := some poll.id, file_name := some poll.question
           caption := message.caption }
  else if let some dice := message.dice then
    some { type := "dice", file_id := none
           file_name := some (dice.emoji ++ " - Value: " ++ toString dice.value)
           caption := message.caption }
  else if let some game := message.game then
    some { type := "game", file_id := none, file_name := some game.title
           caption := message.caption }
  else if let some web_page := message.web_page then
    some { type := "web_page", file_id := none, file_name := web_page.title
           mime_type := some "text/html"
           width := (web_page.photo.map MPhoto.width).join
           height := (web_page.photo.map MPhoto.height).join
           caption := message.caption }
  else none

/- ## Button Resolver (`get_message_by_id` and `click_button`,
src/main.py lines 563-662)

Inline buttons carry their callback data as bytes in Pyrogram; the source
decodes bytes to UTF-8 text before comparing and before returning
(lines 613-615, 712-714), so `callback_data` is modelled as the decoded
optional string. -/

/-- An inline button, restricted to the fields the resolver reads. -/
structure InlineButton where
  text : String
  callback_data : Option String := none
  url : Option String := none
deriving DecidableEq

/-- The `message.reply_markup` object with its `inline_keyboard` rows. -/
structure InlineKeyboardMarkup where
  inline_keyboard : List (List InlineButton)
deriving DecidableEq

/-- A fetched message as the button resolver sees it. -/
structure KMessage where
  id : Int
  reply_markup : Option InlineKeyboardMarkup := none
deriving DecidableEq

/-- The result object of `request_callback_answer`: the bot's acknowledgment
text and/or redirect URL. -/
structure CallbackAnswer where
  message : Option String := none
  url : Option String := none
deriving DecidableEq

/-- Python `needle in hay` on lists of characters: some suffix of `hay`
starts with `needle`. -/
def listContainsSub : List Char → List Char → Bool
  | [], needle => needle.isEmpty
  | c :: t, needle => needle.isPrefixOf (c :: t) || listContainsSub t needle

/-- Python `needle in hay` on strings (substring containment). -/
def strContainsSub (hay needle : String) : Bool :=
  listContainsSub hay.data needle.data

/-- The per-button test of the matching loop (src/main.py lines 617-626):
with `button_text` truthy, case-insensitive substring containment of the
request text in the button label; otherwise, with `button_data` truthy,
exact equality of the decoded callback data with the request data. -/
def buttonMatches (button_text button_data : Option String) (b : InlineButton) : Bool :=
  if pyTruthyStr button_text then
    strContainsSub (pyLower b.text) (pyLower (button_text.getD ""))
  else if pyTruthyStr button_data then
    b.callback_data == button_data
  else false

/-- The nested row/column loop with `break` (src/main.py lines 610-628):
rows top to bottom, buttons left to right within a row, first match wins. -/
def findButton (button_text button_data : Option String) :
    List (List InlineButton) → Option InlineButton
  | [] => none
  | row :: rows =>
    match row.find? (buttonMatches button_text button_data) with
    | some b => some b
    | none => findButton button_text button_data rows

/-- The `ClickButtonResponse` pydantic model (src/main.py lines 80-85):
`success`, `chat_id`, `message_id`, `button_clicked`, `error` — and no
`callback_response` field. -/
structure ClickButtonResponse where
  success : Bool
  chat_id : String
  message_id : Int
  button_clicked : Option String := none
  error : Option String := none
deriving DecidableEq

/-- The `ClickButtonResponse(...)` construction at src/main.py lines 648-654.
The call passes `callback_response=response_text`, but the model declares no
such field; pydantic ignores unknown keyword arguments (and FastAPI's
`response_model` filters the body to the declared fields), so the argument
is discarded. -/
def mkClickButtonResponse (success : Bool) (chat_id : String) (message_id : Int)
    (button_clicked : Option String) (_callback_response : Option String) :
    ClickButtonResponse :=
  { success := success, chat_id := chat_id, message_id := message_id
    button_clicked := button_clicked }

/-- Outcome of one `POST /click-button` request past authentication. -/
inductive ClickOutcome where
  /-- Status 400 "Either button_text or button_data must be provided" (lines 592-596) -/
  | badRequestMissing
  /-- Status 404 "Message not found" (line 605) -/
  | notFoundMessage
  /-- Status 400 "Message has no inline keyboard" (line 608) -/
  | badRequestNoKeyboard
  /-- Status 404 "Button not found: ..." (lines 630-634) -/
  | notFoundButton
  /-- Status 200 with the constructed `ClickButtonResponse` (lines 648-654) -/
  | ok (resp : ClickButtonResponse)
deriving DecidableEq

/-- The `click_button` handler (src/main.py lines 588-662) past
authentication and chat-id normalization.  `message` is the result of
`get_message_by_id` (`none` models a falsy result), `answer` the result of
`request_callback_answer`.  `response_text` is `callback_response.message or
callback_response.url` when the answer object is truthy (lines 642-644). -/
def click_button (chat_id : String) (message_id : Int)
    (button_text button_data : Option String)
    (message : Option KMessage) (answer : Option CallbackAnswer) : ClickOutcome :=
  if !pyTruthyStr button_text && !pyTruthyStr button_data then .badRequestMissing
  else
    match message with
    | none => .notFoundMessage
    | some m =>
      match m.reply_markup with
      | none => .badRequestNoKeyboard
      | some markup =>
        match findButton button_text button_data markup.inline_keyboard with
        | none => .notFoundButton
        | some target_button =>
          let response_text :=
            match answer with
            | some a => pyOrStr a.message a.url
            | none => none
          .ok (mkClickButtonResponse true chat_id message_id (some target_button.text)
                response_text)

/-- Locator `get_message_by_id` (src/main.py lines 563-574).  `direct` models the
`get_messages` point lookup: `.ok (some m)` a truthy message, `.ok none` a
falsy result, `.error e` a raised exception.  `history` models the chat's
history, most recent first; `get_chat_history(limit=20)` yields its first 20
entries, scanned for the first id match. -/
def get_message_by_id (direct : Except String (Option KMessage))
    (history : List KMessage) (message_id : Int) : Option KMessage :=
  match direct with
  | .ok (some message) => some message
  | .ok none => none
  | .error _ => (history.take 20).find? fun msg => msg.id == message_id

/- ## Request-handler chat-id prologue and error taxonomy
(src/main.py lines 520-523, 599-601, 681-683, 761-763)

Each string-typed `chat_id` goes through `if chat_id.lstrip("-").isdigit():
chat_id = int(chat_id)`.  `lstrip("-")` strips ALL leading hyphens, while
`int(...)` accepts at most one leading sign, so e.g. `"--5"` passes the test
and then raises `ValueError`.  `isdigit` and `int` are modelled on ASCII
digit strings, which covers every string built from hyphens and digits. -/

/-- Model of `s.lstrip("-")`: remove all leading hyphens. -/
def pyLstripDash (s : String) : String :=
  ⟨s.data.dropWhile (· == '-')⟩

/-- Model of `s.isdigit()` on ASCII strings: nonempty and all characters digits. -/
def pyStrIsDigit (s : String) : Bool :=
  !s.data.isEmpty && s.data.all Char.isDigit

/-- Digit-string parse helper for `int(...)`: the value of a nonempty
all-digit character list, `none` otherwise. -/
def parseDigits (cs : List Char) : Option Nat :=
  if cs.isEmpty || !cs.all Char.isDigit then none
  else some (cs.foldl (fun acc c => acc * 10 + (c.toNat - '0'.toNat)) 0)

/-- CPython `int(s)` on the strings reachable here: an optional single
leading sign followed by a nonempty digit string; anything else raises
`ValueError`. -/
def pyIntOfString (s : String) : Except String Int :=
  match s.data with
  | '-' :: rest =>
    match parseDigits rest with
    | some n => .ok (-(n : Int))
    | none => .error ("invalid literal for int() with base 10: " ++ s)
  | '+' :: rest =>
    match parseDigits rest with
    | some n => .ok (n : Int)
    | none => .error ("invalid literal for int() with base 10: " ++ s)
  | cs =>
    match parseDigits cs with
    | some n => .ok (n : Int)
    | none => .error ("invalid literal for int() with base 10: " ++ s)

/-- Raised errors distinguished by the handlers' `except` chains. -/
inductive PyError where
  | valueError (msg : String)
  | peerIdInvalid
  | userNotParticipant
  | channelPrivate
  | flood (seconds : Nat)
  | badRequest (msg : String)
  | unauthorized
  | runtime (msg : String)
deriving DecidableEq

/-- The resolved target a handler sends to the chat session: a numeric id or
a username string. -/
inductive ChatTarget where
  | asInt (i : Int)
  | asStr (s : String)
deriving DecidableEq

/-- The chat-id normalization prologue shared by `send_message` (lines
520-523), `click_button` (599-601), `get_buttons` (681-683) and
`get_messages` (761-763): strip all leading hyphens, test `isdigit()`, and
on success convert the ORIGINAL unstripped string with `int(...)`. -/
def chat_id_prologue (chat_id : String) : Except PyError ChatTarget :=
  if pyStrIsDigit (pyLstripDash chat_id) then
    match pyIntOfString chat_id with
    | .ok i => .ok (.asInt i)
    | .error e => .error (.valueError e)
  else .ok (.asStr chat_id)

/-- The `except` chain of `send_message` (src/main.py lines 537-560): the
HTTP status produced for a raised error; the final bare `except Exception`
yields 500. -/
def send_message_except_status : PyError → Nat
  | .peerIdInvalid => 404
  | .userNotParticipant => 403
  | .channelPrivate => 403
  | .flood _ => 429
  | .badRequest _ => 400
  | .unauthorized => 401
  | _ => 500

/-- The `except` chain of `click_button` (src/main.py lines 655-662): only
`Flood` is taxonomy-specific; everything else falls to 500. -/
def click_button_except_status : PyError → Nat
  | .flood _ => 429
  | _ => 500

/-- The `except` chain of `get_buttons` (src/main.py lines 734-741). -/
def get_buttons_except_status : PyError → Nat
  | .peerIdInvalid => 404
  | _ => 500

/-- The `except` chain of `get_messages` (src/main.py lines 793-804). -/
def get_messages_except_status : PyError → Nat
  | .peerIdInvalid => 404
  | .channelPrivate => 403
  | .flood _ => 429
  | _ => 500

/-- A concrete message with an inline keyboard, used by concrete theorems. -/
def sampleKeyboardMsg : KMessage :=
  { id := 5
    reply_markup := some
      { inline_keyboard := [[{ text := "✅ Yes please", callback_data := some "cb:42" }]] } }

/-- A concrete payload used by witnesses. -/
def samplePayload : ReplyPayload :=
  { event := "reply_received"
    timestamp := 1000000
    chat := { id := -100123, title := "Unknown", type := "unknown" }
    message := { id := 9, text := none, date := none }
    from_user := { id := none, username := none, first_name := none, is_bot := false }
    reply_to_message :=
      { id := 42, text := none, date := none, from_user := { id := none, username := none } } }

/- # Part 2: theorems -/

/-- Claim C1, as stated ("a pruning failure never terminates the sweep loop
permanently"), is false: a single failing tick terminates the loop run, with
the remaining ticks never executed. -/
theorem sweepRun_dies_on_failure :
    (sweepRun 24 [(1, [(10, 0)])] [.failure "boom", .success 100]).2 = false := rfl

/-- C1 (amended): the sweep loop body has no exception handler, so the loop
survives a finite prefix of tick outcomes exactly when no tick in it raised;
a pruning failure terminates the loop permanently. -/
theorem sweepRun_alive_iff_no_failure (horizon : Int) (store : TrackedStore)
    (outcomes : List TickOutcome) :
    (sweepRun horizon store outcomes).2 = outcomes.all fun o => !o.isFailure := by
  induction outcomes generalizing store with
  | nil => rfl
  | cons o rest ih =>
    cases o with
    | success now => simpa [sweepRun, TickOutcome.isFailure] using ih (prune store now horizon)
    | failure msg => simp [sweepRun, TickOutcome.isFailure]

/-- C3: after `prune(now, H)` (the sweeper-tick body): (i) no remaining entry
in any chat has `created_at ≤ now - H`; (ii) every chat whose filtered list
(its surviving entries, in original order) is nonempty maps to exactly that
filtered list; (iii) a chat whose entries all expired is absent from the
store's key set (assuming the dict invariant that keys are unique). -/
theorem prune_correct (store : TrackedStore) (now horizon : Int)
    (hkeys : (store.map Prod.fst).Nodup) :
    (∀ p ∈ prune store now horizon, ∀ e ∈ p.2, ¬ (e.2 ≤ now - horizon)) ∧
    (∀ c es, (c, es) ∈ store →
      (es.filter fun e => now - horizon < e.2) ≠ [] →
      (c, es.filter fun e => now - horizon < e.2) ∈ prune store now horizon) ∧
    (∀ c es, (c, es) ∈ store →
      (es.filter fun e => now - horizon < e.2) = [] →
      c ∉ (prune store now horizon).map Prod.fst) := by
  refine ⟨?_, ?_, ?_⟩
  · intro p hp e he
    rw [prune, List.mem_filter] at hp
    obtain ⟨hp, _⟩ := hp
    rw [List.mem_map] at hp
    obtain ⟨q, _, rfl⟩ := hp
    have := List.of_mem_filter he
    simp only [decide_eq_true_eq] at this
    omega
  · intro c es hmem hne
    rw [prune, List.mem_filter]
    refine ⟨List.mem_map.mpr ⟨(c, es), hmem, rfl⟩, ?_⟩
    simpa [List.isEmpty_iff] using hne
  · intro c es hmem hempty hkey
    rw [List.mem_map] at hkey
    obtain ⟨p, hp, hpc⟩ := hkey
    rw [prune, List.mem_filter] at hp
    obtain ⟨hp, hpne⟩ := hp
    rw [List.mem_map] at hp
    obtain ⟨q, hq, rfl⟩ := hp
    have hqc : q.1 = c := hpc
    have : q.2 = es := by
      -- nodup keys: two members of the store with equal keys coincide
      have heq : q = (c, es) := by
        apply List.inj_on_of_nodup_map hkeys hq hmem
        simpa using hqc
      simp [heq]
    rw [this, hempty] at hpne
    simp at hpne

/-- Witness for C3 at a concrete input: with `now = 150` and `horizon = 100`,
chat 1's entry at time 100 survives (its filter result is a member of the
pruned store) while chat 2, whose only entry is at time 0, disappears from
the key set. -/
theorem prune_correct_witness :
    ((1 : Int), ([((10 : Int), (0 : Int)), (11, 100)].filter fun e => (150 : Int) - 100 < e.2)) ∈
        prune [(1, [(10, 0), (11, 100)]), (2, [(20, 0)])] 150 100 ∧
    (2 : Int) ∉ (prune [(1, [(10, 0), (11, 100)]), (2, [(20, 0)])] 150 100).map Prod.fst := by
  have h := prune_correct [(1, [(10, 0), (11, 100)]), (2, [(20, 0)])] 150 100 (by decide)
  exact ⟨h.2.1 1 [(10, 0), (11, 100)] (by decide) (by decide),
    h.2.2 2 [(20, 0)] (by decide) (by decide)⟩

/-- C2: the classifier hands exactly one event to the dispatcher iff the sink
URL is configured (non-empty), the chat passes the allow-list (when one is
set), the message is a reply, and the replied-to id is tracked for that chat
or the replied-to sender is the account's own user id.  The tracked-id
condition constrains only the entry's message id, never its timestamp, so it
holds for an entry whose timestamp is past the expiry horizon but not yet
swept.  The hypothesis reflects startup order: `my_user_id` is assigned
(src/main.py line 432) before the handler is registered (line 435). -/
theorem handle_incoming_message_spec (env : ClassifierEnv) (now : Int) (m : IncMessage)
    (uid : Int) (hml : env.my_user_id = some uid) :
    (handle_incoming_message env now m).isSome = true ↔
      (pyTruthyStr env.webhook_url = true ∧
       (env.monitor_chat_ids = [] ∨ m.chat.id ∈ env.monitor_chat_ids) ∧
       ∃ r, m.reply_to_message = some r ∧
         ((∃ e ∈ trackedGet env.tracked_messages m.chat.id, e.1 = r.id) ∨
          (∃ u, r.from_user = some u ∧ u.id = uid))) := by
  unfold handle_incoming_message
  cases hw : pyTruthyStr env.webhook_url with
  | false => simp [hw]
  | true =>
    simp only [hw, Bool.not_true, Bool.false_eq_true, if_false, true_and]
    cases hmon : (!env.monitor_chat_ids.isEmpty && !(env.monitor_chat_ids.contains m.chat.id)) with
    | true =>
      simp only [if_pos rfl, hmon]
      simp only [Bool.and_eq_true, Bool.not_eq_true'] at hmon
      simp only [Option.isSome_none, Bool.false_eq_true, false_iff, reduceIte]
      rintro ⟨hlist, -⟩
      rcases hlist with hnil | hmem
      · rw [hnil] at hmon; simp at hmon
      · have := hmon.2
        rw [List.contains_eq_any_beq] at this
        simp only [Bool.not_eq_true, List.any_eq_false] at this
        simpa using this m.chat.id hmem
    | false =>
      simp only [hmon, Bool.false_eq_true, if_false]
      have hlist : env.monitor_chat_ids = [] ∨ m.chat.id ∈ env.monitor_chat_ids := by
        simp only [Bool.and_eq_false_iff, Bool.not_eq_false'] at hmon
        rcases hmon with h | h
        · exact Or.inl (by simpa [List.isEmpty_iff] using h)
        · exact Or.inr (by simpa using h)
      simp only [hlist, true_and]
      cases hr : m.reply_to_message with
      | none => simp
      | some r =>
        simp only [Option.some.injEq]
        cases hc : !(((trackedGet env.tracked_messages m.chat.id).any fun e => e.1 == r.id) ||
            (r.from_user.map TUser.id == env.my_user_id)) with
        | true =>
          simp only [hc]
          constructor
          · intro h; simp at h
          · rintro ⟨r', rfl, hcond⟩
            simp only [Bool.not_eq_true', Bool.or_eq_false_iff] at hc
            exfalso
            rcases hcond with ⟨e, he, hid⟩ | ⟨u, hu, huid⟩
            · have := hc.1
              simp only [List.any_eq_false, beq_iff_eq] at this
              exact this e he hid
            · have := hc.2
              rw [hu, hml] at this
              simp [huid] at this
        | false =>
          simp only [hc, Bool.false_eq_true, if_false, Option.isSome_some, true_iff]
          refine ⟨r, rfl, ?_⟩
          simp only [Bool.not_eq_false', Bool.or_eq_true] at hc
          rcases hc with hc | hme
          · left
            simp only [List.any_eq_true, beq_iff_eq] at hc
            obtain ⟨e, he, hid⟩ := hc
            exact ⟨e, he, hid⟩
          · right
            rw [hml] at hme
            cases hu : r.from_user with
            | none => rw [hu] at hme; simp at hme
            | some u =>
              rw [hu] at hme
              exact ⟨u, rfl, by simpa using hme⟩

/-- Witness for C2 at a concrete input: the tracked entry's timestamp `0` is
far older than any reasonable horizon relative to `now = 1000000`, yet the
classifier still emits an event — the staleness window is honored. -/
theorem handle_incoming_message_spec_witness :
    (handle_incoming_message
      { webhook_url := some "http://sink.example/hook"
        monitor_chat_ids := []
        my_user_id := some 777
        tracked_messages := [(-100123, [(42, 0)])] }
      1000000
      { id := 9, chat := { id := -100123 }, reply_to_message := some { id := 42 } }).isSome
      = true := by
  rw [handle_incoming_message_spec _ _ _ 777 rfl]
  exact ⟨rfl, Or.inl rfl, { id := 42 }, rfl,
    Or.inl ⟨(42, 0), by simp [trackedGet], rfl⟩⟩

/-- C4: for every payload and every sink behavior (raised failure or any HTTP
status), `send_webhook` makes at most one POST, every POST made carries a
30-second timeout, and no exception propagates back to the caller (the
inbound-event path); there is no retry. -/
theorem send_webhook_safe (url : Option String) (payload : ReplyPayload)
    (sink : Except String Nat) :
    (send_webhook url payload sink).raised = false ∧
    (send_webhook url payload sink).posts.length ≤ 1 ∧
    ∀ p ∈ (send_webhook url payload sink).posts, p.2 = 30 := by
  unfold send_webhook
  split
  · simp
  · cases sink <;> simp

/-- Witness for C4 at a concrete input: a timing-out sink produces exactly one
POST, the POST made carries a 30-second timeout, and no exception
propagates. -/
theorem send_webhook_safe_witness :
    (send_webhook (some "http://sink.example/hook") samplePayload (.error "timeout")).raised
        = false ∧
    (send_webhook (some "http://sink.example/hook") samplePayload
        (.error "timeout")).posts.length ≤ 1 ∧
    ((samplePayload, 30) : ReplyPayload × Nat).2 = 30 := by
  have h := send_webhook_safe (some "http://sink.example/hook") samplePayload (.error "timeout")
  exact ⟨h.1, h.2.1, h.2.2 (samplePayload, 30) (by decide)⟩

/-- Claim C7, as stated, is false at zero coordinates: for a location with
latitude 0 and longitude 10 the claim demands
`width = some (pyInt (0 * 1000000)) = some 0`, but the truthiness test in
`... if location.latitude else None` makes the code emit no width at all. -/
theorem extract_media_info_location_zero_counterexample :
    extract_media_info
        { media := true, location := some { latitude := 0, longitude := 10 } } =
      some { type := "location", file_id := none, width := none, height := some 10000000,
             caption := none } ∧
    pyInt ((0 : ℚ) * 1000000) = 0 := by
  constructor
  · unfold extract_media_info
    have h10 : (10 : ℚ) * 1000000 = 10000000 := by norm_num
    norm_num [h10]
    rfl
  · norm_num [pyInt]

/-- C7 (amended): a message whose attachment is a location with latitude
`lat` and longitude `lon` yields a descriptor of kind `location` with no
`fileId`, whose width is `lat * 1000000` truncated toward zero when `lat` is
nonzero and absent when `lat` is zero, and whose height is `lon * 1000000`
truncated toward zero when `lon` is nonzero and absent when `lon` is zero;
the caption is copied through. -/
theorem extract_media_info_location (lat lon : ℚ) (cap : Option String) :
    extract_media_info
        { media := true, location := some { latitude := lat, longitude := lon },
          caption := cap } =
      some { type := "location", file_id := none
             width := if lat ≠ 0 then some (pyInt (lat * 1000000)) else none
             height := if lon ≠ 0 then some (pyInt (lon * 1000000)) else none
             caption := cap } := rfl

/-- Claim C5, as stated, is false in the both-supplied case: a request
carrying both `button_text` and `button_data` is not rejected with 400;
matching is attempted and here succeeds (with `button_text` taking
precedence over the non-matching `button_data` value). -/
theorem click_button_both_supplied_counterexample :
    click_button "1" 5 (some "yes") (some "nonexistent") (some sampleKeyboardMsg) none =
      .ok { success := true, chat_id := "1", message_id := 5,
            button_clicked := some "✅ Yes please", error := none } := by decide

/-- Helper for C5: when the missing-criterion guard is false, every later
branch of the handler produces an outcome other than the 400 rejection. -/
theorem click_button_else_ne_missing (chat_id : String) (message_id : Int)
    (bt bd : Option String) (message : Option KMessage) (answer : Option CallbackAnswer)
    (h : (!pyTruthyStr bt && !pyTruthyStr bd) = false) :
    click_button chat_id message_id bt bd message answer ≠ .badRequestMissing := by
  unfold click_button
  simp only [h, Bool.false_eq_true, if_false]
  cases message with
  | none => simp
  | some m =>
    cases hm : m.reply_markup with
    | none => simp [hm]
    | some markup =>
      cases hf : findButton bt bd markup.inline_keyboard with
      | none => simp [hm, hf]
      | some b => simp [hm, hf]

/-- C5 (amended): the caller-level validation rejects a click-button request
with 400 (before any message lookup or button matching, hence for every
message and keyboard) exactly when neither `button_text` nor `button_data`
is supplied with a non-empty value; when both are supplied the validation
passes and matching proceeds. -/
theorem click_button_requires_criterion (chat_id : String) (message_id : Int)
    (bt bd : Option String) (message : Option KMessage) (answer : Option CallbackAnswer) :
    click_button chat_id message_id bt bd message answer = .badRequestMissing ↔
      (pyTruthyStr bt = false ∧ pyTruthyStr bd = false) := by
  cases hbt : pyTruthyStr bt with
  | true =>
    have hg : (!pyTruthyStr bt && !pyTruthyStr bd) = false := by simp [hbt]
    constructor
    · intro h
      exact absurd h (click_button_else_ne_missing chat_id message_id bt bd message answer hg)
    · rintro ⟨h1, -⟩
      cases h1
  | false =>
    cases hbd : pyTruthyStr bd with
    | false =>
      have : click_button chat_id message_id bt bd message answer = .badRequestMissing := by
        unfold click_button
        simp [hbt, hbd]
      simp [this]
    | true =>
      have hg : (!pyTruthyStr bt && !pyTruthyStr bd) = false := by simp [hbd]
      constructor
      · intro h
        exact absurd h (click_button_else_ne_missing chat_id message_id bt bd message answer hg)
      · rintro ⟨-, h2⟩
        cases h2

/-- Witness for C5's amended theorem at a concrete input: with neither
criterion supplied the request is rejected with 400 even though the message
has a clickable keyboard. -/
theorem click_button_requires_criterion_witness :
    click_button "1" 5 none none (some sampleKeyboardMsg) none = .badRequestMissing ∧
    pyTruthyStr none = false :=
  ⟨(click_button_requires_criterion "1" 5 none none (some sampleKeyboardMsg) none).mpr
    ⟨rfl, rfl⟩, rfl⟩

/-- C6 (code bug): the bot's acknowledgment never reaches the caller.  The
handler computes `response_text` from the callback answer and passes it as
`callback_response=` (src/main.py line 653), but `ClickButtonResponse`
(lines 80-85) declares no such field, so pydantic discards it: the response
for an answer carrying acknowledgment text "OK" is identical to the response
for no answer at all, and carries only the five declared fields. -/
theorem click_button_ack_dropped :
    click_button "1" 5 (some "yes") none (some sampleKeyboardMsg)
        (some { message := some "OK", url := none }) =
      click_button "1" 5 (some "yes") none (some sampleKeyboardMsg) none ∧
    click_button "1" 5 (some "yes") none (some sampleKeyboardMsg)
        (some { message := some "OK", url := none }) =
      .ok { success := true, chat_id := "1", message_id := 5,
            button_clicked := some "✅ Yes please", error := none } :=
  ⟨rfl, rfl⟩

/-- Helper for C8: the nested row/column loop equals a first-match scan of
the row-major flattening of the keyboard. -/
theorem findButton_eq_find?_flatten (bt bd : Option String) :
    ∀ keyboard : List (List InlineButton),
      findButton bt bd keyboard = keyboard.flatten.find? (buttonMatches bt bd)
  | [] => rfl
  | row :: rows => by
    rw [findButton, List.flatten_cons, List.find?_append,
      ← findButton_eq_find?_flatten bt bd rows]
    cases row.find? (buttonMatches bt bd) <;> simp [Option.or]

/-- C8: for every keyboard and supplied criterion, matching returns the
first button in row-major order satisfying the criterion — case-insensitive
substring containment of the supplied text in the label, or exact equality
of the decoded callback data with the supplied data — and when no button
satisfies it the handler answers 404 (not-found). -/
theorem findButton_spec (keyboard : List (List InlineButton)) (t d : String)
    (ht : t ≠ "") (hd : d ≠ "") :
    (findButton (some t) none keyboard =
      keyboard.flatten.find? fun b => strContainsSub (pyLower b.text) (pyLower t)) ∧
    (findButton none (some d) keyboard =
      keyboard.flatten.find? fun b => b.callback_data == some d) ∧
    (∀ chat_id message_id answer,
      findButton (some t) none keyboard = none →
      click_button chat_id message_id (some t) none
        (some { id := message_id, reply_markup := some { inline_keyboard := keyboard } })
        answer = .notFoundButton) ∧
    (∀ chat_id message_id answer,
      findButton none (some d) keyboard = none →
      click_button chat_id message_id none (some d)
        (some { id := message_id, reply_markup := some { inline_keyboard := keyboard } })
        answer = .notFoundButton) := by
  have hte : t.isEmpty = false :=
    Bool.eq_false_iff.mpr fun hh => ht ((String.isEmpty_iff t).mp hh)
  have hde : d.isEmpty = false :=
    Bool.eq_false_iff.mpr fun hh => hd ((String.isEmpty_iff d).mp hh)
  have hptext : buttonMatches (some t) none =
      fun b => strContainsSub (pyLower b.text) (pyLower t) :=
    funext fun b => by simp [buttonMatches, pyTruthyStr, hte]
  have hpdata : buttonMatches none (some d) = fun b => b.callback_data == some d :=
    funext fun b => by simp [buttonMatches, pyTruthyStr, hde]
  refine ⟨?_, ?_, ?_, ?_⟩
  · rw [findButton_eq_find?_flatten, hptext]
  · rw [findButton_eq_find?_flatten, hpdata]
  · intro chat_id message_id answer hnone
    unfold click_button
    have hg : (!pyTruthyStr (some t) && !pyTruthyStr none) = false := by
      simp [pyTruthyStr, hte]
    simp only [hg, Bool.false_eq_true, if_false, hnone]
  · intro chat_id message_id answer hnone
    unfold click_button
    have hg : (!pyTruthyStr none && !pyTruthyStr (some d)) = false := by
      simp [pyTruthyStr, hde]
    simp only [hg, Bool.false_eq_true, if_false, hnone]

/-- Witness for C8 at a concrete input: `text="Yes"` matches the button
labeled `"✅ Yes please"` (case-insensitive substring), while
`data="cb:4"`, a proper substring of the callback data `"cb:42"`, matches
nothing, and the handler answers 404. -/
theorem findButton_spec_witness :
    (findButton (some "Yes") none [[{ text := "✅ Yes please", callback_data := some "cb:42" }]] =
      ([[{ text := "✅ Yes please", callback_data := some "cb:42" }]] :
        List (List InlineButton)).flatten.find?
        fun b => strContainsSub (pyLower b.text) (pyLower "Yes")) ∧
    click_button "1" 5 none (some "cb:4")
        (some { id := 5, reply_markup := some { inline_keyboard :=
          [[{ text := "✅ Yes please", callback_data := some "cb:42" }]] } }) none =
      .notFoundButton := by
  have h := findButton_spec
    [[{ text := "✅ Yes please", callback_data := some "cb:42" }]] "Yes" "cb:4"
    (by decide) (by decide)
  exact ⟨h.1, h.2.2.2 "1" 5 none rfl⟩

/-- C9: message location attempts the direct point lookup first (a truthy
result is returned as-is); on any raised failure from that path it falls
back to scanning the most recent 20 history entries for a matching id,
returning the first match; and when the id is absent from both the direct
lookup and those 20 entries the result is not-found. -/
theorem get_message_by_id_spec (direct : Except String (Option KMessage))
    (history : List KMessage) (message_id : Int) :
    (∀ m, direct = .ok (some m) → get_message_by_id direct history message_id = some m) ∧
    (∀ e, direct = .error e →
      get_message_by_id direct history message_id =
        (history.take 20).find? fun msg => msg.id == message_id) ∧
    ((direct = .ok none ∨ ∃ e, direct = .error e) →
      ((history.take 20).find? fun msg => msg.id == message_id) = none →
      get_message_by_id direct history message_id = none) := by
  refine ⟨?_, ?_, ?_⟩
  · rintro m rfl
    rfl
  · rintro e rfl
    rfl
  · rintro (rfl | ⟨e, rfl⟩) hfind
    · rfl
    · exact hfind

/-- Witness for C9 at a concrete input: the direct lookup raises, the
fallback scans the 20 most recent entries and finds id 5. -/
theorem get_message_by_id_spec_witness :
    get_message_by_id (.error "FLOOD_WAIT") [{ id := 7 }, { id := 5 }] 5 =
      (([{ id := 7 }, { id := 5 }] : List KMessage).take 20).find?
        fun msg => msg.id == 5 :=
  (get_message_by_id_spec (.error "FLOOD_WAIT") [{ id := 7 }, { id := 5 }] 5).2.1
    "FLOOD_WAIT" rfl

/-- C10: every string chat id failing the digit test (after stripping ALL
leading hyphens) is passed through unchanged as a username string; `"--5"`
passes the digit test, yet `int("--5")` raises `ValueError`, which none of
the four handlers' taxonomy-specific `except` clauses catch — each bare
`except Exception` turns it into a 500, not a 400 — while a single leading
hyphen converts fine. -/
theorem chat_id_prologue_spec :
    (∀ s : String, pyStrIsDigit (pyLstripDash s) = false →
      chat_id_prologue s = .ok (.asStr s)) ∧
    pyStrIsDigit (pyLstripDash "--5") = true ∧
    chat_id_prologue "--5" =
      .error (.valueError "invalid literal for int() with base 10: --5") ∧
    (∀ msg, send_message_except_status (.valueError msg) = 500 ∧
      click_button_except_status (.valueError msg) = 500 ∧
      get_buttons_except_status (.valueError msg) = 500 ∧
      get_messages_except_status (.valueError msg) = 500) ∧
    chat_id_prologue "-100123" = .ok (.asInt (-100123)) ∧
    chat_id_prologue "@username" = .ok (.asStr "@username") := by
  refine ⟨?_, by decide, rfl, ?_, rfl, rfl⟩
  · intro s h
    unfold chat_id_prologue
    simp [h]
  · intro msg
    exact ⟨rfl, rfl, rfl, rfl⟩

/-- Witness for C10 at a concrete input: a username-style chat id fails the
digit test and is passed through unchanged. -/
theorem chat_id_prologue_spec_witness :
    chat_id_prologue "@durov" = .ok (.asStr "@durov") :=
  chat_id_prologue_spec.1 "@durov" rfl
